import Mathlib

/-!
Verification of the telegram MCP server (`telegram-mcp-server_chat-reader.ts`,
its second near-identical variant, the bot-API variant, and the separate
authentication script) against its natural-language specification.

The TypeScript source is shallowly embedded: the process-wide mutable fields
(`this.client`, `this.session`) become an explicit `ServerState`; the
third-party telegram backend becomes a `Backend` record of oracles returning
`Except String` (a thrown JS `Error` with its `.message` is `Except.error msg`);
the filesystem becomes an `FS` value; every backend invocation performed by a
handler is recorded in a `List BackendOp` log so that "no network call is made"
is a provable statement.
-/

/-! ## Envelopes (Tool Result Envelope of the MCP protocol) -/

/-- One element of a result envelope's `content` array: `{type: 'text', text: ...}`. -/
structure ContentItem where
  type : String
  text : String
deriving DecidableEq, Repr

/-- Tool Result Envelope `{content: [...], isError?: boolean}`.
`isError := none` models the JS object having no `isError` key. -/
structure Envelope where
  content : List ContentItem
  isError : Option Bool
deriving DecidableEq, Repr

/-! ## JSON values, escaping and rendering

`JVal` models the JSON trees the handlers build and pass to `JSON.stringify`.
Keys whose JS value is `undefined` are dropped by `JSON.stringify`, so the
embedding simply omits them from the field list; explicit `null` is kept. -/

inductive JVal where
  | str (s : String)
  | num (n : Int)
  | bool (b : Bool)
  | null
  | arr (xs : List JVal)
  | obj (fields : List (String × JVal))

/-- JSON escaping of one character, as performed by `JSON.stringify` on the
characters that occur in this system's data (quote, backslash, and the common
control characters; other characters below U+0020 would be `\u`-escaped by
`JSON.stringify` and are excluded by the `jsonSafe` side condition where the
distinction matters). -/
def escapeChar (c : Char) : List Char :=
  if c = '"' then ['\\', '"']
  else if c = '\\' then ['\\', '\\']
  else if c = '\n' then ['\\', 'n']
  else if c = '\r' then ['\\', 'r']
  else if c = '\t' then ['\\', 't']
  else [c]

/-- JSON string-body escaping, character by character. -/
def jsonEscape : List Char → List Char
  | [] => []
  | c :: cs => escapeChar c ++ jsonEscape cs

/-- Characters whose `JSON.stringify` escaping is fully covered by
`escapeChar`: everything at or above U+0020 plus tab, newline, carriage
return. -/
def jsonSafe (c : Char) : Bool :=
  (32 ≤ c.toNat) || c = '\n' || c = '\r' || c = '\t'

mutual

/-- Rendering of a JSON tree to text, modelling `JSON.stringify(v, null, 2)`
up to insignificant whitespace (the claims under verification never depend on
the indentation bytes of a success payload). -/
def JVal.render : JVal → String
  | JVal.str s => "\"" ++ ⟨jsonEscape s.data⟩ ++ "\""
  | JVal.num n => toString n
  | JVal.bool b => if b then "true" else "false"
  | JVal.null => "null"
  | JVal.arr xs => "[" ++ JVal.renderList xs ++ "]"
  | JVal.obj fs => "\x7b" ++ JVal.renderFields fs ++ "\x7d"

def JVal.renderList : List JVal → String
  | [] => ""
  | x :: xs =>
    match xs with
    | [] => JVal.render x
    | _ :: _ => JVal.render x ++ "," ++ JVal.renderList xs

def JVal.renderFields : List (String × JVal) → String
  | [] => ""
  | (k, v) :: xs =>
    match xs with
    | [] => "\"" ++ ⟨jsonEscape k.data⟩ ++ "\":" ++ JVal.render v
    | _ :: _ => "\"" ++ ⟨jsonEscape k.data⟩ ++ "\":" ++ JVal.render v ++ "," ++ JVal.renderFields xs

end

/-- The top-level keys of a rendered JSON object (empty for non-objects);
used to state which fields are present in a handler's output object. -/
def jsonKeys : JVal → List String
  | JVal.obj fields => fields.map (fun p => p.1)
  | _ => []

/-! ## Small string utilities mirroring the JS runtime -/

/-- `List`-level prefix test on characters. -/
def listStartsWith : List Char → List Char → Bool
  | [], _ => true
  | _ :: _, [] => false
  | p :: ps, x :: xs => p == x && listStartsWith ps xs

/-- Substring occurrence test on character lists. -/
def strContainsAux (pat : List Char) : List Char → Bool
  | [] => listStartsWith pat []
  | c :: rest => listStartsWith pat (c :: rest) || strContainsAux pat rest

/-- `s` contains `pat` as a contiguous substring (JS `String.prototype.includes`). -/
def strContains (s pat : String) : Bool :=
  strContainsAux pat.data s.data

/-- Whitespace recognised by JS `String.prototype.trim` (the ASCII part,
which is all that occurs in a saved session file). -/
def isJsWhitespace (c : Char) : Bool :=
  c = ' ' || c = '\t' || c = '\n' || c = '\r' || c = '\x0b' || c = '\x0c'

/-- Trim surrounding whitespace from a character list. -/
def trimChars (l : List Char) : List Char :=
  ((l.dropWhile isJsWhitespace).reverse.dropWhile isJsWhitespace).reverse

/-- JS `String.prototype.trim`. -/
def jsTrim (s : String) : String :=
  ⟨trimChars s.data⟩

/-- Value of a decimal digit run, as accumulated by `parseInt`. -/
def digitsToNat (l : List Char) : Nat :=
  l.foldl (fun acc c => acc * 10 + (c.toNat - '0'.toNat)) 0

/-- JS `parseInt` on the decimal inputs this system feeds it (a credential
`apiId` string): leading whitespace, optional sign, maximal digit run;
`none` models `NaN` (no digits, or the argument being `undefined`).
The hexadecimal `0x` branch of `parseInt` is not exercised by the source. -/
def jsParseIntChars (l : List Char) : Option Int :=
  match l.dropWhile isJsWhitespace with
  | '-' :: rest =>
    let ds := rest.takeWhile Char.isDigit
    if ds.isEmpty then none else some (-(Int.ofNat (digitsToNat ds)))
  | '+' :: rest =>
    let ds := rest.takeWhile Char.isDigit
    if ds.isEmpty then none else some (Int.ofNat (digitsToNat ds))
  | l1 =>
    let ds := l1.takeWhile Char.isDigit
    if ds.isEmpty then none else some (Int.ofNat (digitsToNat ds))

/-- `parseInt(x)` where `x` may be `undefined` (property lookup miss). -/
def jsParseInt : Option String → Option Int
  | none => none
  | some s => jsParseIntChars s.data

/-! ## Session Store (`loadCredentials` / `loadSession`, and the on-disk
format written by `TelegramAuthenticator.authenticate`) -/

/-- State of one file as the server process can observe it:
absent (`fs.existsSync` false), unreadable (`readFileSync` throws),
or readable with the given text. -/
inductive FileState where
  | absent
  | unreadable
  | content (s : String)
deriving DecidableEq, Repr

/-- The two persisted artifacts: `./telegram_credentials.json` and
`./telegram_session.txt`. -/
structure FS where
  credFile : FileState
  sessFile : FileState
deriving DecidableEq, Repr

/-- The credentials record collected by the authentication script:
`{apiId, apiHash, phoneNumber}`, all strings (the script stores the raw
prompt answers). -/
structure Credentials where
  apiId : String
  apiHash : String
  phoneNumber : String
deriving DecidableEq, Repr

/-- All characters of a credentials record are covered by the modelled
`JSON.stringify` escaping. -/
def credOk (c : Credentials) : Bool :=
  (c.apiId.data ++ c.apiHash.data ++ c.phoneNumber.data).all jsonSafe

/-- The exact text `TelegramAuthenticator.authenticate` persists:
`JSON.stringify({apiId, apiHash, phoneNumber}, null, 2)`. -/
def stringifyCreds (c : Credentials) : List Char :=
  "\x7b\n  \"apiId\": \"".data ++
    (jsonEscape c.apiId.data ++
      ("\",\n  \"apiHash\": \"".data ++
        (jsonEscape c.apiHash.data ++
          ("\",\n  \"phoneNumber\": \"".data ++
            (jsonEscape c.phoneNumber.data ++ "\"\n\x7d".data)))))

/-- Expect a literal prefix; return the remainder on success. -/
def expectLit : List Char → List Char → Option (List Char)
  | [], l => some l
  | _ :: _, [] => none
  | c :: cs, d :: ds => if c = d then expectLit cs ds else none

/-- Resolve one JSON string escape (the escapes `JSON.stringify` emits for
this system's data). -/
def unescapeChar (c : Char) : Option Char :=
  if c = '"' then some '"'
  else if c = '\\' then some '\\'
  else if c = 'n' then some '\n'
  else if c = 'r' then some '\r'
  else if c = 't' then some '\t'
  else none

/-- Scan a JSON string body up to and including its closing quote, resolving
escapes; returns the decoded body and the rest of the input. -/
def parseStringBody : List Char → Option (List Char × List Char)
  | [] => none
  | ch :: rest =>
    if ch = '"' then some ([], rest)
    else if ch = '\\' then
      match rest with
      | [] => none
      | e :: rest2 =>
        match unescapeChar e, parseStringBody rest2 with
        | some c, some (s, r) => some (c :: s, r)
        | _, _ => none
    else
      match parseStringBody rest with
      | some (s, r) => some (ch :: s, r)
      | none => none

/-- `JSON.parse` modelled on the credential file's field shape (spec §1/§6
treat the on-disk formats beyond their field shapes as out of scope): parses
exactly the object layout the authentication script writes, yielding the
key/value pairs; any other text is unparseable (`none`). -/
def parseCreds (l : List Char) : Option (List (String × String)) :=
  match expectLit "\x7b\n  \"apiId\": \"".data l with
  | none => none
  | some r1 =>
    match parseStringBody r1 with
    | none => none
    | some (v1, r2) =>
      match expectLit ",\n  \"apiHash\": \"".data r2 with
      | none => none
      | some r3 =>
        match parseStringBody r3 with
        | none => none
        | some (v2, r4) =>
          match expectLit ",\n  \"phoneNumber\": \"".data r4 with
          | none => none
          | some r5 =>
            match parseStringBody r5 with
            | none => none
            | some (v3, r6) =>
              match expectLit "\n\x7d".data r6 with
              | none => none
              | some r7 =>
                match r7 with
                | [] => some [("apiId", ⟨v1⟩), ("apiHash", ⟨v2⟩), ("phoneNumber", ⟨v3⟩)]
                | _ :: _ => none

/-- `loadCredentials()`: parse the credentials file if present and readable;
a missing file, a read error (caught and logged) or a parse error (caught and
logged) all yield `null`, modelled as `none`. -/
def loadCredentials (fsys : FS) : Option (List (String × String)) :=
  match fsys.credFile with
  | FileState.content s => parseCreds s.data
  | _ => none

/-- `loadSession()`: the session file's text trimmed of surrounding
whitespace; `''` when the file is absent or reading it throws. -/
def loadSession (fsys : FS) : String :=
  match fsys.sessFile with
  | FileState.content s => jsTrim s
  | _ => ""

/-- JS property access on a parsed JSON object (`undefined` when the key is
absent, modelled as `none`). -/
def jsLookup (obj : List (String × String)) (key : String) : Option String :=
  (obj.find? (fun p => p.1 == key)).map (fun p => p.2)

/-! ## Telegram data model (the slices of the gramjs `Api` objects the
handlers read) -/

/-- A dialog's `entity`: `Api.User`, `Api.Chat`, `Api.Channel`, or anything
else (including `undefined`), which matches none of the `instanceof` tests. -/
inductive Entity where
  | user (firstName lastName username phone : Option String)
  | chat (title : String) (participantsCount : Nat)
  | channel (title : String) (username : Option String) (participantsCount : Option Nat)
  | other
deriving DecidableEq, Repr

/-- The fields of `dialog.message` the handler reads. -/
structure LastMessage where
  id : Nat
  message : String
  date : Nat
deriving DecidableEq, Repr

/-- The fields of a gramjs dialog the `getDialogs` handler reads. -/
structure Dialog where
  id : Option Int
  title : Option String
  isUser : Bool
  isGroup : Bool
  isChannel : Bool
  unreadCount : Nat
  entity : Entity
  message : Option LastMessage
deriving DecidableEq, Repr

/-- A message's polymorphic `fromId` peer reference. -/
inductive Peer where
  | peerUser (userId : Nat)
  | peerChat (chatId : Nat)
  | peerChannel (channelId : Nat)
deriving DecidableEq, Repr

/-- The sender fields the `getMessages` handler reads off `msg.sender`. -/
structure Sender where
  firstName : Option String
  lastName : Option String
  username : Option String
deriving DecidableEq, Repr

/-- `msg.replyTo`, carrying an optional `replyToMsgId`. -/
structure ReplyHeader where
  replyToMsgId : Option Nat
deriving DecidableEq, Repr

/-- The fields of a gramjs message the `getMessages` handler reads. -/
structure Msg where
  id : Nat
  message : String
  date : Nat
  fromId : Option Peer
  sender : Option Sender
  replyTo : Option ReplyHeader
  views : Option Nat
  forwards : Option Nat
deriving DecidableEq, Repr

/-- The fields of `client.getMe()`'s result the `getMe` handler reads. -/
structure Me where
  id : Option Int
  firstName : Option String
  lastName : Option String
  username : Option String
  phone : Option String
  bot : Option Bool
deriving DecidableEq, Repr

/-! ## Normalization performed by the handlers -/

/-- Nested `user` detail object built for an `Api.User` entity. -/
structure UserDetail where
  firstName : Option String
  lastName : Option String
  username : Option String
  phone : Option String
deriving DecidableEq, Repr

/-- Nested `chat` detail object built for an `Api.Chat` entity. -/
structure ChatDetail where
  title : String
  participantsCount : Nat
deriving DecidableEq, Repr

/-- Nested `channel` detail object built for an `Api.Channel` entity. -/
structure ChannelDetail where
  title : String
  username : Option String
  participantsCount : Option Nat
deriving DecidableEq, Repr

/-- The `chatInfo` object `getDialogs` builds per dialog. The three detail
fields start absent and the `instanceof` chain populates at most one. -/
structure ChatInfo where
  id : Option String
  title : Option String
  isUser : Bool
  isGroup : Bool
  isChannel : Bool
  unreadCount : Nat
  user : Option UserDetail
  chat : Option ChatDetail
  channel : Option ChannelDetail
  lastMessage : Option LastMessage
deriving DecidableEq, Repr

/-- The per-dialog body of `getDialogs`'s `dialogs.map(...)`. -/
def mapDialog (dialog : Dialog) : ChatInfo :=
  { id := dialog.id.map (fun i => toString i)
    title := dialog.title
    isUser := dialog.isUser
    isGroup := dialog.isGroup
    isChannel := dialog.isChannel
    unreadCount := dialog.unreadCount
    user := match dialog.entity with
      | Entity.user fn ln un ph => some ⟨fn, ln, un, ph⟩
      | _ => none
    chat := match dialog.entity with
      | Entity.chat t pc => some ⟨t, pc⟩
      | _ => none
    channel := match dialog.entity with
      | Entity.channel t un pc => some ⟨t, un, pc⟩
      | _ => none
    lastMessage := dialog.message }

/-- The `result` array of `getDialogs`. -/
def dialogsResult (dialogs : List Dialog) : List ChatInfo :=
  dialogs.map mapDialog

/-- Optional string field of a JSON object: dropped when `undefined`. -/
def optStrField (key : String) : Option String → List (String × JVal)
  | some s => [(key, JVal.str s)]
  | none => []

/-- Optional numeric field of a JSON object: dropped when `undefined`. -/
def optNumField (key : String) : Option Nat → List (String × JVal)
  | some n => [(key, JVal.num (Int.ofNat n))]
  | none => []

/-- JSON tree of a nested `user` detail. -/
def userDetailJson (u : UserDetail) : JVal :=
  JVal.obj (optStrField "firstName" u.firstName ++ optStrField "lastName" u.lastName ++
    optStrField "username" u.username ++ optStrField "phone" u.phone)

/-- JSON tree of a nested `chat` detail. -/
def chatDetailJson (c : ChatDetail) : JVal :=
  JVal.obj [("title", JVal.str c.title), ("participantsCount", JVal.num (Int.ofNat c.participantsCount))]

/-- JSON tree of a nested `channel` detail. -/
def channelDetailJson (c : ChannelDetail) : JVal :=
  JVal.obj ([("title", JVal.str c.title)] ++ optStrField "username" c.username ++
    optNumField "participantsCount" c.participantsCount)

/-- JSON tree of a `lastMessage` summary. -/
def lastMessageJson (m : LastMessage) : JVal :=
  JVal.obj [("id", JVal.num (Int.ofNat m.id)), ("message", JVal.str m.message),
    ("date", JVal.num (Int.ofNat m.date))]

/-- JSON tree of one `chatInfo` object, in the key order the handler builds
it; keys whose value is `undefined` are dropped by `JSON.stringify`. -/
def chatInfoJson (c : ChatInfo) : JVal :=
  JVal.obj (optStrField "id" c.id ++ optStrField "title" c.title ++
    [("isUser", JVal.bool c.isUser), ("isGroup", JVal.bool c.isGroup),
     ("isChannel", JVal.bool c.isChannel), ("unreadCount", JVal.num (Int.ofNat c.unreadCount))] ++
    (match c.user with | some u => [("user", userDetailJson u)] | none => []) ++
    (match c.chat with | some d => [("chat", chatDetailJson d)] | none => []) ++
    (match c.channel with | some d => [("channel", channelDetailJson d)] | none => []) ++
    (match c.lastMessage with | some m => [("lastMessage", lastMessageJson m)] | none => []))

/-- The normalized shape `getMessages` builds per message. -/
structure MsgOut where
  id : Nat
  message : String
  date : Nat
  fromId : Option String
  sender : Option Sender
  replyTo : Option Nat
  views : Option Nat
  forwards : Option Nat
deriving DecidableEq, Repr

/-- The per-message body of `getMessages`'s `messages.map(...)`:
`fromId` is `(msg.fromId as PeerUser)?.userId?.toString()` — the decimal
string of the user id when the peer is a `PeerUser`, and absent otherwise
(casting a non-`PeerUser` object leaves `userId` undefined). -/
def mapMessage (msg : Msg) : MsgOut :=
  { id := msg.id
    message := msg.message
    date := msg.date
    fromId := match msg.fromId with
      | some (Peer.peerUser uid) => some (toString uid)
      | _ => none
    sender := msg.sender
    replyTo := msg.replyTo.bind (fun r => r.replyToMsgId)
    views := msg.views
    forwards := msg.forwards }

/-- The `result` array of `getMessages`. -/
def messagesResult (messages : List Msg) : List MsgOut :=
  messages.map mapMessage

/-- JSON tree of one normalized message (`sender` is an explicit `null` when
the message has no sender — the source uses a ternary with `null`). -/
def msgJson (m : MsgOut) : JVal :=
  JVal.obj ([("id", JVal.num (Int.ofNat m.id)), ("message", JVal.str m.message),
    ("date", JVal.num (Int.ofNat m.date))] ++
    optStrField "fromId" m.fromId ++
    [("sender", match m.sender with
      | some s => JVal.obj (optStrField "firstName" s.firstName ++
          optStrField "lastName" s.lastName ++ optStrField "username" s.username)
      | none => JVal.null)] ++
    optNumField "replyTo" m.replyTo ++ optNumField "views" m.views ++
    optNumField "forwards" m.forwards)

/-- JSON tree of the `getMe` payload. -/
def meJson (me : Me) : JVal :=
  JVal.obj (optStrField "id" (me.id.map (fun i => toString i)) ++
    optStrField "firstName" me.firstName ++ optStrField "lastName" me.lastName ++
    optStrField "username" me.username ++ optStrField "phone" me.phone ++
    (match me.bot with | some b => [("isBot", JVal.bool b)] | none => []))

/-! ## Account Client Adapter state and backend oracle -/

/-- The arguments the source passes to `new TelegramClient(session, parseInt(apiId), apiHash, {connectionRetries: 5})`. -/
structure ClientHandle where
  session : String
  apiId : Option Int
  apiHash : Option String
  connectionRetries : Nat
deriving DecidableEq, Repr

/-- The process-wide mutable fields of `TelegramChatReaderMCP`:
`this.client` (null until a connect-class handler assigns it) and
`this.session` (the `StringSession`'s string). -/
structure ServerState where
  client : Option ClientHandle
  session : String
deriving DecidableEq, Repr

/-- `this.client = null; this.session = new StringSession('')` at construction. -/
def initialState : ServerState :=
  { client := none, session := "" }

/-- One backend/network invocation performed through the telegram client;
the handlers' logs of these are the observable "network calls". -/
inductive BackendOp where
  | opConnect
  | opGetDialogs (limit : Nat)
  | opGetEntity (entityId : Option String)
  | opGetMessages (limit : Nat) (offsetId : Option Nat)
  | opSearchGlobal (query : Option String) (offsetRate : Nat) (offsetId : Nat) (limit : Nat)
  | opGetMe
deriving DecidableEq, Repr

/-- The third-party telegram client, as an oracle: each operation either
returns a value or throws (`Except.error` carrying the JS error's message). -/
structure Backend where
  connectOp : ClientHandle → Except String Unit
  getDialogsOp : Nat → Except String (List Dialog)
  getEntityOp : Option String → Except String Entity
  getMessagesOp : Entity → Nat → Option Nat → Except String (List Msg)
  searchGlobalOp : Option String → Nat → Nat → Nat → Except String JVal
  getMeOp : Except String Me

/-- The `arguments` object of a tool call, as the handlers destructure it:
each known key is present (`some`) or `undefined` (`none`). -/
structure Args where
  apiId : Option String
  apiHash : Option String
  phoneNumber : Option String
  limit : Option Nat
  entityId : Option String
  offsetId : Option Nat
  query : Option String
deriving DecidableEq, Repr

/-- An arguments object with every key absent. -/
def noArgs : Args :=
  { apiId := none, apiHash := none, phoneNumber := none, limit := none,
    entityId := none, offsetId := none, query := none }

/-- `errorContent` of the chat-reader variants: note the source sets
`isError: false` even though this is the failure wrapper. -/
def errorContent (errorMessage : String) : Envelope :=
  { content := [{ type := "text", text := "Error: " ++ errorMessage }],
    isError := some false }

/-- `errorContent` of the bot-API variant: no `isError` key at all. -/
def errorContentBot (errorMessage : String) : Envelope :=
  { content := [{ type := "text", text := "Error: " ++ errorMessage }],
    isError := none }

/-! ## The chat-reader handlers

Each handler returns the envelope it produced (or `Except.error msg` for a
thrown error that will be caught at the dispatcher), the server state after
the handler ran (mutations made before a throw persist), and the log of
backend invocations it performed. -/

/-- `getDialogs`: fail fast when `this.client` is null; otherwise fetch up to
`limit` (default 100) dialogs and normalize them. The backend call sits in no
`try` block of its own — a thrown backend error propagates to the dispatcher
unmodified. -/
def getDialogs (st : ServerState) (bk : Backend) (args : Args) :
    Except String Envelope × ServerState × List BackendOp :=
  match st.client with
  | none => (Except.error "Not connected to Telegram. Use connect_telegram first.", st, [])
  | some _ =>
    let limit := args.limit.getD 100
    match bk.getDialogsOp limit with
    | Except.error e => (Except.error e, st, [BackendOp.opGetDialogs limit])
    | Except.ok dialogs =>
      let body := JVal.render (JVal.arr ((dialogsResult dialogs).map chatInfoJson))
      (Except.ok { content := [{ type := "text", text := body }], isError := some false },
        st, [BackendOp.opGetDialogs limit])

/-- `getMessages`: fail fast when not connected; resolve the entity, fetch up
to `limit` (default 50) messages before `offsetId`, normalize. Both backend
calls sit in a `try` whose `catch` re-throws `Could not get messages: ...`. -/
def getMessages (st : ServerState) (bk : Backend) (args : Args) :
    Except String Envelope × ServerState × List BackendOp :=
  match st.client with
  | none => (Except.error "Not connected to Telegram. Use connect_telegram first.", st, [])
  | some _ =>
    let limit := args.limit.getD 50
    match bk.getEntityOp args.entityId with
    | Except.error e =>
      (Except.error ("Could not get messages: " ++ e), st, [BackendOp.opGetEntity args.entityId])
    | Except.ok entity =>
      match bk.getMessagesOp entity limit args.offsetId with
      | Except.error e =>
        (Except.error ("Could not get messages: " ++ e), st,
          [BackendOp.opGetEntity args.entityId, BackendOp.opGetMessages limit args.offsetId])
      | Except.ok messages =>
        let body := JVal.render (JVal.arr ((messagesResult messages).map msgJson))
        (Except.ok { content := [{ type := "text", text := body }], isError := none },
          st, [BackendOp.opGetEntity args.entityId, BackendOp.opGetMessages limit args.offsetId])

/-- `searchGlobal`: fail fast when not connected; invoke
`Api.messages.SearchGlobal` with `offsetRate: 0`, `offsetId: 0`, an empty
peer anchor and `limit` (default 50); the raw response is re-serialized. The
`catch` re-throws `Search failed: ...`. -/
def searchGlobal (st : ServerState) (bk : Backend) (args : Args) :
    Except String Envelope × ServerState × List BackendOp :=
  match st.client with
  | none => (Except.error "Not connected to Telegram. Use connect_telegram first.", st, [])
  | some _ =>
    let limit := args.limit.getD 50
    match bk.searchGlobalOp args.query 0 0 limit with
    | Except.error e =>
      (Except.error ("Search failed: " ++ e), st,
        [BackendOp.opSearchGlobal args.query 0 0 limit])
    | Except.ok raw =>
      (Except.ok
        { content := [{ type := "text", text := JVal.render raw }], isError := some false },
        st, [BackendOp.opSearchGlobal args.query 0 0 limit])

/-- `getMe`: fail fast when not connected; fetch the own identity and project
its fields. Like `getDialogs`, the backend call is not wrapped in a local
`try` — a thrown backend error propagates to the dispatcher unmodified. -/
def getMe (st : ServerState) (bk : Backend) :
    Except String Envelope × ServerState × List BackendOp :=
  match st.client with
  | none => (Except.error "Not connected to Telegram. Use connect_telegram first.", st, [])
  | some _ =>
    match bk.getMeOp with
    | Except.error e => (Except.error e, st, [BackendOp.opGetMe])
    | Except.ok me =>
      (Except.ok
        { content := [{ type := "text", text := JVal.render (meJson me) }],
          isError := some false },
        st, [BackendOp.opGetMe])

/-- `autoConnect`: throws `No saved credentials found...` when
`loadCredentials()` is null, then `No saved session found...` when
`loadSession()` is empty — in both cases before any state change or backend
call. Otherwise it assigns `this.session` and `this.client` and only then
attempts `connect()`; a connect failure is re-thrown as
`Auto-connection failed: ...` with the already-assigned client left in place. -/
def autoConnect (st : ServerState) (bk : Backend) (fsys : FS) :
    Except String Envelope × ServerState × List BackendOp :=
  match loadCredentials fsys with
  | none => (Except.error "No saved credentials found. Please run authentication script first.", st, [])
  | some credentials =>
    let sessionString := loadSession fsys
    if sessionString = "" then
      (Except.error "No saved session found. Please run authentication script first.", st, [])
    else
      let handle : ClientHandle :=
        { session := sessionString,
          apiId := jsParseInt (jsLookup credentials "apiId"),
          apiHash := jsLookup credentials "apiHash",
          connectionRetries := 5 }
      let st1 : ServerState := { client := some handle, session := sessionString }
      match bk.connectOp handle with
      | Except.ok _ =>
        let body := "Successfully connected to Telegram using saved session!"
        (Except.ok { content := [{ type := "text", text := body }], isError := none },
          st1, [BackendOp.opConnect])
      | Except.error e =>
        (Except.error ("Auto-connection failed: " ++ e), st1, [BackendOp.opConnect])

/-- `connectTelegram`: destructures only `apiId` and `apiHash` (the second
variant also destructures `phoneNumber` but never uses it), assigns
`this.session` and `this.client`, then attempts `connect()`; a connect
failure is swallowed and reported as a fixed informational envelope, with the
already-assigned client left in place. -/
def connectTelegram (_st : ServerState) (bk : Backend) (fsys : FS) (args : Args) :
    Except String Envelope × ServerState × List BackendOp :=
  let sessionString := loadSession fsys
  let handle : ClientHandle :=
    { session := sessionString,
      apiId := jsParseInt args.apiId,
      apiHash := args.apiHash,
      connectionRetries := 5 }
  let st1 : ServerState := { client := some handle, session := sessionString }
  match bk.connectOp handle with
  | Except.ok _ =>
    let body := "Successfully connected to Telegram using existing session!"
    (Except.ok { content := [{ type := "text", text := body }], isError := none },
      st1, [BackendOp.opConnect])
  | Except.error _ =>
    let body := "Connection failed. Please ensure you have run the authentication script first to save your session."
    (Except.ok { content := [{ type := "text", text := body }], isError := none },
      st1, [BackendOp.opConnect])

/-! ## Tool Registry & Dispatcher (chat-reader variant) -/

/-- The case labels of the chat-reader dispatch switch. -/
def readerToolNames : List String :=
  ["auto_connect", "connect_telegram", "get_dialogs", "get_messages", "search_global", "get_me"]

/-- The data-fetching tools (spec §7: every one checks the live connection
first). -/
def dataToolNames : List String :=
  ["get_dialogs", "get_messages", "search_global", "get_me"]

/-- The body of the `CallToolRequestSchema` handler's `try` block: route by
exact name, or build the `Unknown tool` envelope in the `default` branch
(which touches no state and no backend). -/
def callToolExcept (st : ServerState) (bk : Backend) (fsys : FS)
    (name : String) (args : Args) :
    Except String Envelope × ServerState × List BackendOp :=
  if name = "auto_connect" then autoConnect st bk fsys
  else if name = "connect_telegram" then connectTelegram st bk fsys args
  else if name = "get_dialogs" then getDialogs st bk args
  else if name = "get_messages" then getMessages st bk args
  else if name = "search_global" then searchGlobal st bk args
  else if name = "get_me" then getMe st bk
  else (Except.ok (errorContent ("Unknown tool: " ++ name)), st, [])

/-- The result of one dispatched tool call: the envelope sent back, the
server state afterwards, and the backend operations performed. -/
structure CallResult where
  env : Envelope
  state : ServerState
  ops : List BackendOp
deriving DecidableEq, Repr

/-- The full `CallToolRequestSchema` handler: run the switch and convert any
thrown error into `errorContent(error.message)` — no exception escapes to the
transport layer. -/
def callTool (st : ServerState) (bk : Backend) (fsys : FS)
    (name : String) (args : Args) : CallResult :=
  match callToolExcept st bk fsys name args with
  | (Except.ok env, st1, ops) => { env := env, state := st1, ops := ops }
  | (Except.error e, st1, ops) => { env := errorContent e, state := st1, ops := ops }

/-! ## Tool listing (the `ListToolsRequestSchema` handler) -/

/-- A property entry of an input schema. -/
structure PropSchema where
  type : String
deriving DecidableEq, Repr

/-- The `inputSchema` of a tool definition (`required` is absent for
`auto_connect` in the source). -/
structure InputSchema where
  type : String
  properties : List (String × PropSchema)
  required : Option (List String)
deriving DecidableEq, Repr

/-- One Tool Definition `{name, description, inputSchema}`. -/
structure ToolDef where
  name : String
  description : String
  inputSchema : InputSchema
deriving DecidableEq, Repr

/-- The fixed literal the `ListToolsRequestSchema` handler returns (the
source writes the first two entries and elides the remaining ones behind a
`... other tools` comment; the literal is rebuilt identically on every call). -/
def toolsList : List ToolDef :=
  [ { name := "auto_connect",
      description := "Auto-connect using saved credentials and session",
      inputSchema := { type := "object", properties := [], required := none } },
    { name := "connect_telegram",
      description := "Connect with manual credentials (requires pre-auth)",
      inputSchema :=
        { type := "object",
          properties :=
            [("apiId", { type := "string" }), ("apiHash", { type := "string" }),
             ("phoneNumber", { type := "string" })],
          required := some ["apiId", "apiHash", "phoneNumber"] } } ]

/-- The `ListToolsRequestSchema` handler as a function of the observable
process state: its body reads neither `this.client`, `this.session` nor the
filesystem and returns the fixed literal. -/
def listToolsHandle (_st : ServerState) (_fsys : FS) : List ToolDef :=
  toolsList

/-! ## Bot-API variant (`TelegramMcpServer_botApi`) -/

/-- The case labels of the bot-API dispatch switch. -/
def botToolNames : List String :=
  ["send_telegram_message", "get_telegram_updates", "send_telegram_photo"]

/-- One invocation of the `node-telegram-bot-api` client. -/
inductive BotOp where
  | opSendMessage (chatId : Option String) (message : Option String) (parseMode : Option String)
  | opGetUpdates (limit : Nat)
  | opSendPhoto (chatId : Option String) (photo : Option String) (caption : Option String)
deriving DecidableEq, Repr

/-- The bot backend as an oracle: send operations yield the sent message's
id, `getUpdates` yields the raw update list (re-serialized verbatim). -/
structure BotBackend where
  sendMessageOp : Option String → Option String → Option String → Except String Nat
  getUpdatesOp : Nat → Except String JVal
  sendPhotoOp : Option String → Option String → Option String → Except String Nat

/-- The `arguments` object of a bot tool call. -/
structure BotArgs where
  chatId : Option String
  message : Option String
  parseMode : Option String
  photo : Option String
  caption : Option String
  limit : Option Nat
deriving DecidableEq, Repr

/-- A bot arguments object with every key absent. -/
def noBotArgs : BotArgs :=
  { chatId := none, message := none, parseMode := none, photo := none,
    caption := none, limit := none }

/-- JS truthiness of an optional string (`if (parseMode)` / `if (caption)`):
absent or empty strings are falsy. -/
def truthy : Option String → Option String
  | some s => if s = "" then none else some s
  | none => none

/-- `sendTelegramMessage`: forwards `chatId`, `message` and (when truthy)
`parse_mode`; confirms with the sent message id. -/
def sendTelegramMessage (bb : BotBackend) (args : BotArgs) :
    Except String Envelope × List BotOp :=
  let options := truthy args.parseMode
  match bb.sendMessageOp args.chatId args.message options with
  | Except.error e => (Except.error e, [BotOp.opSendMessage args.chatId args.message options])
  | Except.ok mid =>
    let body := "Message sent successfully! Message ID: " ++ toString mid
    (Except.ok { content := [{ type := "text", text := body }], isError := none },
      [BotOp.opSendMessage args.chatId args.message options])

/-- `getTelegramUpdates`: fetches up to `limit` (default 10) raw updates and
re-serializes them. -/
def getTelegramUpdates (bb : BotBackend) (args : BotArgs) :
    Except String Envelope × List BotOp :=
  let limit := args.limit.getD 10
  match bb.getUpdatesOp limit with
  | Except.error e => (Except.error e, [BotOp.opGetUpdates limit])
  | Except.ok updates =>
    (Except.ok { content := [{ type := "text", text := JVal.render updates }], isError := none },
      [BotOp.opGetUpdates limit])

/-- `sendTelegramPhoto`: forwards `chatId`, `photo` and (when truthy)
`caption`; confirms with the sent message id. -/
def sendTelegramPhoto (bb : BotBackend) (args : BotArgs) :
    Except String Envelope × List BotOp :=
  let options := truthy args.caption
  match bb.sendPhotoOp args.chatId args.photo options with
  | Except.error e => (Except.error e, [BotOp.opSendPhoto args.chatId args.photo options])
  | Except.ok mid =>
    let body := "Photo sent successfully! Message ID: " ++ toString mid
    (Except.ok { content := [{ type := "text", text := body }], isError := none },
      [BotOp.opSendPhoto args.chatId args.photo options])

/-- The bot variant's `try` block: route by exact name, or build the
`Unknown tool` envelope in the `default` branch. -/
def botCallToolExcept (bb : BotBackend) (name : String) (args : BotArgs) :
    Except String Envelope × List BotOp :=
  if name = "send_telegram_message" then sendTelegramMessage bb args
  else if name = "get_telegram_updates" then getTelegramUpdates bb args
  else if name = "send_telegram_photo" then sendTelegramPhoto bb args
  else (Except.ok (errorContentBot ("Unknown tool: " ++ name)), [])

/-- The bot variant's full `CallToolRequestSchema` handler with its `catch`. -/
def botCallTool (bb : BotBackend) (name : String) (args : BotArgs) :
    Envelope × List BotOp :=
  match botCallToolExcept bb name args with
  | (Except.ok env, ops) => (env, ops)
  | (Except.error e, ops) => (errorContentBot e, ops)

/-! ## Concrete fixtures used by witnesses and counterexamples -/

/-- A filesystem with neither persisted artifact. -/
def emptyFS : FS :=
  { credFile := FileState.absent, sessFile := FileState.absent }

/-- A benign backend oracle: every operation succeeds with minimal data. -/
def okBackend : Backend :=
  { connectOp := fun _ => Except.ok ()
    getDialogsOp := fun _ => Except.ok []
    getEntityOp := fun _ => Except.ok Entity.other
    getMessagesOp := fun _ _ _ => Except.ok []
    searchGlobalOp := fun _ _ _ _ => Except.ok (JVal.arr [])
    getMeOp := Except.ok
      { id := some 1, firstName := none, lastName := none, username := none,
        phone := none, bot := some false } }

/-- A backend whose `connect()` always throws. -/
def noConnectBackend : Backend :=
  { okBackend with connectOp := fun _ => Except.error "connection refused" }

/-- A backend whose `getDialogs` throws a raw backend error. -/
def dialogsErrorBackend : Backend :=
  { okBackend with getDialogsOp := fun _ => Except.error "FLOOD_WAIT_420" }

/-- A backend whose `getMe` throws a raw backend error. -/
def meErrorBackend : Backend :=
  { okBackend with getMeOp := Except.error "AUTH_KEY_UNREGISTERED" }

/-- A client handle as built by a successful connect-class call. -/
def connHandle : ClientHandle :=
  { session := "", apiId := some 1, apiHash := some "h", connectionRetries := 5 }

/-- A server state whose live connection is set. -/
def connState : ServerState :=
  { client := some connHandle, session := "" }

/-- A benign bot-API backend oracle. -/
def okBotBackend : BotBackend :=
  { sendMessageOp := fun _ _ _ => Except.ok 1
    getUpdatesOp := fun _ => Except.ok (JVal.arr [])
    sendPhotoOp := fun _ _ _ => Except.ok 2 }


/-! ## Session Store round-trip lemmas -/

theorem expectLit_append (p r : List Char) : expectLit p (p ++ r) = some r := by
  induction p with
  | nil => rfl
  | cons c cs ih => simp [expectLit, ih]

theorem expectLit_refl (p : List Char) : expectLit p p = some [] := by
  have h := expectLit_append p []
  simpa using h

theorem parseStringBody_cons (ch : Char) (l : List Char) :
    parseStringBody (ch :: l) =
      (if ch = '"' then some ([], l)
       else if ch = '\\' then
         match l with
         | [] => none
         | e :: rest2 =>
           match unescapeChar e, parseStringBody rest2 with
           | some c, some (s, r) => some (c :: s, r)
           | _, _ => none
       else
         match parseStringBody l with
         | some (s, r) => some (ch :: s, r)
         | none => none) := by
  rw [parseStringBody.eq_def]

theorem parseStringBody_escape (s rest : List Char) :
    parseStringBody (jsonEscape s ++ ('"' :: rest)) = some (s, rest) := by
  induction s with
  | nil =>
    show parseStringBody ([] ++ ('"' :: rest)) = some ([], rest)
    rw [List.nil_append, parseStringBody_cons, if_pos rfl]
  | cons c cs ih =>
    by_cases h1 : c = '"'
    · subst h1
      simp [jsonEscape, escapeChar, parseStringBody_cons, unescapeChar, ih]
    · by_cases h2 : c = '\\'
      · subst h2
        simp [jsonEscape, escapeChar, parseStringBody_cons, unescapeChar, ih]
      · by_cases h3 : c = '\n'
        · subst h3
          simp [jsonEscape, escapeChar, parseStringBody_cons, unescapeChar, ih]
        · by_cases h4 : c = '\r'
          · subst h4
            simp [jsonEscape, escapeChar, parseStringBody_cons, unescapeChar, ih]
          · by_cases h5 : c = '\t'
            · subst h5
              simp [jsonEscape, escapeChar, parseStringBody_cons, unescapeChar, ih]
            · have e2 : escapeChar c = [c] := by
                rw [escapeChar, if_neg h1, if_neg h2, if_neg h3, if_neg h4, if_neg h5]
              show parseStringBody ((escapeChar c ++ jsonEscape cs) ++ ('"' :: rest)) = some (c :: cs, rest)
              rw [e2]
              simp only [List.cons_append, List.nil_append]
              rw [parseStringBody_cons, if_neg h1, if_neg h2, ih]

theorem expectLit_nil (l : List Char) : expectLit [] l = some l := rfl

theorem expectLit_cons_same (c : Char) (cs l : List Char) :
    expectLit (c :: cs) (c :: l) = expectLit cs l := by
  simp [expectLit]

theorem parseCreds_stringify (c : Credentials) :
    parseCreds (stringifyCreds c) =
      some [("apiId", c.apiId), ("apiHash", c.apiHash), ("phoneNumber", c.phoneNumber)] := by
  simp only [parseCreds, stringifyCreds, List.cons_append, List.nil_append, List.append_assoc,
    expectLit_cons_same, expectLit_nil, parseStringBody_escape]

/-- C8: Round-trip of the Session Store. Writing a credentials record in the
authentication flow's on-disk format and reading it back with
`loadCredentials()` reconstructs exactly the persisted record; `loadSession()`
returns exactly the persisted token modulo trimming of surrounding
whitespace; an absent or unreadable session file yields the empty string, and
an absent, unreadable or unparseable credentials file yields `none` (the
`null` sentinel), with every error swallowed (all functions are total). The
hypothesis `credOk c` restricts to credential strings whose characters are
covered by the modelled `JSON.stringify` escaping (everything outside that
set would be `\u`-escaped by the real serializer). -/
theorem sessionStore_roundtrip (c : Credentials) (tok s : String) (sf cf : FileState)
    (hc : credOk c = true) :
    loadCredentials { credFile := FileState.content ⟨stringifyCreds c⟩, sessFile := sf } =
      some [("apiId", c.apiId), ("apiHash", c.apiHash), ("phoneNumber", c.phoneNumber)] ∧
    loadSession { credFile := cf, sessFile := FileState.content tok } = jsTrim tok ∧
    loadSession { credFile := cf, sessFile := FileState.absent } = "" ∧
    loadSession { credFile := cf, sessFile := FileState.unreadable } = "" ∧
    loadCredentials { credFile := FileState.absent, sessFile := sf } = none ∧
    loadCredentials { credFile := FileState.unreadable, sessFile := sf } = none ∧
    (parseCreds s.data = none →
      loadCredentials { credFile := FileState.content s, sessFile := sf } = none) := by
  refine ⟨?_, rfl, rfl, rfl, rfl, rfl, ?_⟩
  · show parseCreds (⟨stringifyCreds c⟩ : String).data = _
    exact parseCreds_stringify c
  · intro h
    show parseCreds s.data = none
    exact h

/-- Witness for C8 at a concrete credentials record and session token. -/
theorem sessionStore_roundtrip_witness :
    credOk { apiId := "123", apiHash := "abc", phoneNumber := "+10000000000" } = true ∧
    (loadCredentials
        { credFile := FileState.content
            ⟨stringifyCreds { apiId := "123", apiHash := "abc", phoneNumber := "+10000000000" }⟩,
          sessFile := FileState.absent } =
      some [("apiId", "123"), ("apiHash", "abc"), ("phoneNumber", "+10000000000")] ∧
     loadSession { credFile := FileState.absent, sessFile := FileState.content " tok \n" } =
       jsTrim " tok \n" ∧
     loadSession { credFile := FileState.absent, sessFile := FileState.absent } = "" ∧
     loadSession { credFile := FileState.absent, sessFile := FileState.unreadable } = "" ∧
     loadCredentials { credFile := FileState.absent, sessFile := FileState.absent } = none ∧
     loadCredentials { credFile := FileState.unreadable, sessFile := FileState.absent } = none ∧
     (parseCreds ("nope" : String).data = none →
       loadCredentials { credFile := FileState.content "nope", sessFile := FileState.absent } =
         none)) :=
  ⟨by decide,
   sessionStore_roundtrip { apiId := "123", apiHash := "abc", phoneNumber := "+10000000000" }
     " tok \n" "nope" FileState.absent FileState.absent (by decide)⟩

/-- C1 (amended): for every data-fetching tool, if no connect-class call has
been made yet (the `this.client` field is still null), the dispatcher
returns an error envelope whose text contains "Not connected" and performs
no backend operation, leaving the state unchanged. (The original claim also
covered the state after a failed `connect_telegram`; the counterexample
shows that state has `this.client` set and does reach the backend.) -/
theorem callTool_not_connected_when_client_absent (st : ServerState) (bk : Backend)
    (fsys : FS) (args : Args) (name : String)
    (hc : st.client = none) (hn : name ∈ dataToolNames) :
    callTool st bk fsys name args =
      { env := errorContent "Not connected to Telegram. Use connect_telegram first.",
        state := st, ops := [] } ∧
    strContains "Error: Not connected to Telegram. Use connect_telegram first."
      "Not connected" = true := by
  refine ⟨?_, by decide⟩
  simp only [dataToolNames, List.mem_cons, List.not_mem_nil, or_false] at hn
  rcases hn with rfl | rfl | rfl | rfl
  · simp [callTool, callToolExcept, getDialogs, hc]
  · simp [callTool, callToolExcept, getMessages, hc]
  · simp [callTool, callToolExcept, searchGlobal, hc]
  · simp [callTool, callToolExcept, getMe, hc]

/-- Witness for C1 at the initial state and the `get_dialogs` tool. -/
theorem callTool_not_connected_when_client_absent_witness :
    initialState.client = none ∧ "get_dialogs" ∈ dataToolNames ∧
    (callTool initialState okBackend emptyFS "get_dialogs" noArgs =
      { env := errorContent "Not connected to Telegram. Use connect_telegram first.",
        state := initialState, ops := [] } ∧
     strContains "Error: Not connected to Telegram. Use connect_telegram first."
       "Not connected" = true) :=
  ⟨rfl, by decide,
   callTool_not_connected_when_client_absent initialState okBackend emptyFS noArgs
     "get_dialogs" rfl (by decide)⟩

/-- C1 counterexample: run `connect_telegram` against a backend whose
`connect()` throws — no connect-class call has succeeded (the reply is the
fixed "Connection failed..." text), yet `this.client` is left assigned, so a
subsequent `get_dialogs` performs a backend call and its reply does not
contain "Not connected", contradicting the claim for that reachable state. -/
theorem callTool_not_connected_counterexample :
    (let ctArgs : Args :=
       { noArgs with apiId := some "1", apiHash := some "h", phoneNumber := some "+1" }
     let r1 := callTool initialState noConnectBackend emptyFS "connect_telegram" ctArgs
     let r2 := callTool r1.state noConnectBackend emptyFS "get_dialogs" noArgs
     r1.env.content =
       [{ type := "text",
          text := "Connection failed. Please ensure you have run the authentication script first to save your session." }] ∧
     r1.state.client.isSome = true ∧
     r2.ops = [BackendOp.opGetDialogs 100] ∧
     r2.env = { content := [{ type := "text", text := "[]" }], isError := some false } ∧
     strContains "[]" "Not connected" = false) := by
  decide

/-- C2: for every tool name outside the static registry, both dispatcher
variants return the `Unknown tool: {name}` error envelope and perform no
backend operation, leaving the state unchanged. -/
theorem callTool_unknown_tool (st : ServerState) (bk : Backend) (fsys : FS) (args : Args)
    (bb : BotBackend) (bargs : BotArgs) (name : String)
    (h1 : name ∉ readerToolNames) (h2 : name ∉ botToolNames) :
    callTool st bk fsys name args =
      { env := errorContent ("Unknown tool: " ++ name), state := st, ops := [] } ∧
    botCallTool bb name bargs = (errorContentBot ("Unknown tool: " ++ name), []) ∧
    (errorContent ("Unknown tool: " ++ name)).content =
      [{ type := "text", text := "Error: " ++ ("Unknown tool: " ++ name) }] := by
  simp only [readerToolNames, List.mem_cons, List.not_mem_nil, or_false, not_or] at h1
  simp only [botToolNames, List.mem_cons, List.not_mem_nil, or_false, not_or] at h2
  obtain ⟨n1, n2, n3, n4, n5, n6⟩ := h1
  obtain ⟨m1, m2, m3⟩ := h2
  refine ⟨?_, ?_, rfl⟩
  · simp [callTool, callToolExcept, n1, n2, n3, n4, n5, n6]
  · simp [botCallTool, botCallToolExcept, m1, m2, m3]

/-- Witness for C2 at a concrete unregistered name. -/
theorem callTool_unknown_tool_witness :
    ("definitely_not_a_tool" ∉ readerToolNames) ∧ ("definitely_not_a_tool" ∉ botToolNames) ∧
    (callTool initialState okBackend emptyFS "definitely_not_a_tool" noArgs =
      { env := errorContent ("Unknown tool: " ++ "definitely_not_a_tool"),
        state := initialState, ops := [] } ∧
     botCallTool okBotBackend "definitely_not_a_tool" noBotArgs =
       (errorContentBot ("Unknown tool: " ++ "definitely_not_a_tool"), []) ∧
     (errorContent ("Unknown tool: " ++ "definitely_not_a_tool")).content =
       [{ type := "text", text := "Error: " ++ ("Unknown tool: " ++ "definitely_not_a_tool") }]) :=
  ⟨by decide, by decide,
   callTool_unknown_tool initialState okBackend emptyFS noArgs okBotBackend noBotArgs
     "definitely_not_a_tool" (by decide) (by decide)⟩

/-- C3 (amended): `getMessages` and `searchGlobal` catch backend failures
and re-throw them with an operation-identifying prefix ("Could not get
messages: ", "Search failed: "); `getDialogs` and `getMe` have no such
handler, so their backend failures reach the dispatcher unmodified (where
the dispatcher's own catch still converts them to an error envelope). -/
theorem adapter_error_wrapping (st : ServerState) (bk : Backend) (args : Args)
    (h : ClientHandle) (e : String) (ent : Entity) (hc : st.client = some h) :
    (bk.getEntityOp args.entityId = Except.error e →
      (getMessages st bk args).1 = Except.error ("Could not get messages: " ++ e)) ∧
    (bk.getEntityOp args.entityId = Except.ok ent →
      bk.getMessagesOp ent (args.limit.getD 50) args.offsetId = Except.error e →
      (getMessages st bk args).1 = Except.error ("Could not get messages: " ++ e)) ∧
    (bk.searchGlobalOp args.query 0 0 (args.limit.getD 50) = Except.error e →
      (searchGlobal st bk args).1 = Except.error ("Search failed: " ++ e)) ∧
    (bk.getDialogsOp (args.limit.getD 100) = Except.error e →
      (getDialogs st bk args).1 = Except.error e) ∧
    (bk.getMeOp = Except.error e → (getMe st bk).1 = Except.error e) := by
  refine ⟨?_, ?_, ?_, ?_, ?_⟩
  · intro hx
    simp [getMessages, hc, hx]
  · intro hx hy
    simp [getMessages, hc, hx, hy]
  · intro hx
    simp [searchGlobal, hc, hx]
  · intro hx
    simp [getDialogs, hc, hx]
  · intro hx
    simp [getMe, hc, hx]

/-- Witness for C3 at a connected state and a concrete error message. -/
theorem adapter_error_wrapping_witness :
    connState.client = some connHandle ∧
    ((dialogsErrorBackend.getEntityOp noArgs.entityId = Except.error "FLOOD_WAIT_420" →
      (getMessages connState dialogsErrorBackend noArgs).1 =
        Except.error ("Could not get messages: " ++ "FLOOD_WAIT_420")) ∧
     (dialogsErrorBackend.getEntityOp noArgs.entityId = Except.ok Entity.other →
      dialogsErrorBackend.getMessagesOp Entity.other (noArgs.limit.getD 50) noArgs.offsetId =
        Except.error "FLOOD_WAIT_420" →
      (getMessages connState dialogsErrorBackend noArgs).1 =
        Except.error ("Could not get messages: " ++ "FLOOD_WAIT_420")) ∧
     (dialogsErrorBackend.searchGlobalOp noArgs.query 0 0 (noArgs.limit.getD 50) =
        Except.error "FLOOD_WAIT_420" →
      (searchGlobal connState dialogsErrorBackend noArgs).1 =
        Except.error ("Search failed: " ++ "FLOOD_WAIT_420")) ∧
     (dialogsErrorBackend.getDialogsOp (noArgs.limit.getD 100) = Except.error "FLOOD_WAIT_420" →
      (getDialogs connState dialogsErrorBackend noArgs).1 = Except.error "FLOOD_WAIT_420") ∧
     (dialogsErrorBackend.getMeOp = Except.error "FLOOD_WAIT_420" →
      (getMe connState dialogsErrorBackend).1 = Except.error "FLOOD_WAIT_420")) :=
  ⟨rfl,
   adapter_error_wrapping connState dialogsErrorBackend noArgs connHandle "FLOOD_WAIT_420"
     Entity.other rfl⟩

/-- C3 counterexample: a raw backend failure in `getDialogs` (and likewise
`getMe`) reaches the dispatcher with its message unmodified — no
operation-identifying prefix is added — contradicting the claim that every
data operation re-throws with a prefix. -/
theorem adapter_error_wrapping_counterexample :
    (getDialogs connState dialogsErrorBackend noArgs).1 = Except.error "FLOOD_WAIT_420" ∧
    (callTool connState dialogsErrorBackend emptyFS "get_dialogs" noArgs).env =
      errorContent "FLOOD_WAIT_420" ∧
    (getMe connState meErrorBackend).1 = Except.error "AUTH_KEY_UNREGISTERED" :=
  ⟨rfl, rfl, rfl⟩

/-- C4: every failure-path envelope of the dispatchers is built by
`errorContent` (chat-reader) or its bot-variant counterpart: its `isError`
flag is `false` (chat-reader) or absent (bot variant) — never `true` — and
its single text element is exactly `Error: ` followed by the extracted
message; the dispatcher's catch converts any thrown handler error into that
envelope. -/
theorem failure_envelope_shape (m name : String) (st : ServerState) (bk : Backend)
    (fsys : FS) (args : Args) :
    (errorContent m).isError = some false ∧
    (errorContent m).content = [{ type := "text", text := "Error: " ++ m }] ∧
    (errorContentBot m).isError = none ∧
    (errorContentBot m).content = [{ type := "text", text := "Error: " ++ m }] ∧
    (∀ e st1 ops, callToolExcept st bk fsys name args = (Except.error e, st1, ops) →
      callTool st bk fsys name args = { env := errorContent e, state := st1, ops := ops }) := by
  refine ⟨rfl, rfl, rfl, rfl, ?_⟩
  intro e st1 ops hx
  simp [callTool, hx]

/-- Witness for C4 at the failing `auto_connect` input. -/
theorem failure_envelope_shape_witness :
    callToolExcept initialState okBackend emptyFS "auto_connect" noArgs =
      (Except.error "No saved credentials found. Please run authentication script first.",
        initialState, []) ∧
    callTool initialState okBackend emptyFS "auto_connect" noArgs =
      { env := errorContent "No saved credentials found. Please run authentication script first.",
        state := initialState, ops := [] } ∧
    (errorContent "x").isError = some false :=
  ⟨rfl,
   (failure_envelope_shape "x" "auto_connect" initialState okBackend emptyFS noArgs).2.2.2.2
     "No saved credentials found. Please run authentication script first." initialState [] rfl,
   (failure_envelope_shape "x" "auto_connect" initialState okBackend emptyFS noArgs).1⟩

/-- C5: `get_messages` normalization sets `fromId` to the decimal string of
the sender's numeric id exactly when the message's polymorphic `from`
reference is a direct-person (`PeerUser`) reference, and leaves it absent
(serialized as no value) otherwise. -/
theorem mapMessage_fromId_spec (m : Msg) :
    (∀ uid : Nat, m.fromId = some (Peer.peerUser uid) →
      (mapMessage m).fromId = some (toString uid)) ∧
    ((∀ uid : Nat, m.fromId ≠ some (Peer.peerUser uid)) → (mapMessage m).fromId = none) := by
  constructor
  · intro uid hx
    simp [mapMessage, hx]
  · intro hall
    match hm : m.fromId with
    | none => simp [mapMessage, hm]
    | some (Peer.peerUser uid) => exact absurd hm (hall uid)
    | some (Peer.peerChat cid) => simp [mapMessage, hm]
    | some (Peer.peerChannel cid) => simp [mapMessage, hm]

/-- Witness for C5: a `PeerUser` reference with id 555 yields the string
"555"; a `PeerChat` reference yields no sender id. -/
theorem mapMessage_fromId_spec_witness :
    (mapMessage
      { id := 1, message := "hi", date := 0, fromId := some (Peer.peerUser 555),
        sender := none, replyTo := none, views := none, forwards := none }).fromId =
      some "555" ∧
    (mapMessage
      { id := 2, message := "yo", date := 0, fromId := some (Peer.peerChat 7),
        sender := none, replyTo := none, views := none, forwards := none }).fromId = none :=
  ⟨(mapMessage_fromId_spec
      { id := 1, message := "hi", date := 0, fromId := some (Peer.peerUser 555),
        sender := none, replyTo := none, views := none, forwards := none }).1 555 rfl,
   (mapMessage_fromId_spec
      { id := 2, message := "yo", date := 0, fromId := some (Peer.peerChat 7),
        sender := none, replyTo := none, views := none, forwards := none }).2
     (fun uid hx => by simp at hx)⟩

/-- C6: `auto_connect` checks the two persisted artifacts in order and fails
with a distinct error for each missing one — "No saved credentials found..."
when the credentials record is absent, "No saved session found..." when the
credentials parse but the session token is empty/absent — and in both cases
no connection is attempted (no backend operation) and the live-connection
state is unchanged. -/
theorem autoConnect_missing_artifacts (st : ServerState) (bk : Backend) (fsys : FS)
    (args : Args) (obj : List (String × String)) :
    (loadCredentials fsys = none →
      callTool st bk fsys "auto_connect" args =
        { env := errorContent "No saved credentials found. Please run authentication script first.",
          state := st, ops := [] }) ∧
    (loadCredentials fsys = some obj → loadSession fsys = "" →
      callTool st bk fsys "auto_connect" args =
        { env := errorContent "No saved session found. Please run authentication script first.",
          state := st, ops := [] }) ∧
    strContains "Error: No saved credentials found. Please run authentication script first."
      "No saved credentials found" = true ∧
    strContains "Error: No saved session found. Please run authentication script first."
      "No saved session found" = true := by
  refine ⟨?_, ?_, by decide, by decide⟩
  · intro hC
    simp [callTool, callToolExcept, autoConnect, hC]
  · intro hC hS
    simp [callTool, callToolExcept, autoConnect, hC, hS]

/-- Witness for C6: an empty filesystem hits the missing-credentials error;
a filesystem with a parseable credentials file but no session file hits the
missing-session error. -/
theorem autoConnect_missing_artifacts_witness :
    callTool initialState okBackend emptyFS "auto_connect" noArgs =
      { env := errorContent "No saved credentials found. Please run authentication script first.",
        state := initialState, ops := [] } ∧
    callTool initialState okBackend
        { credFile := FileState.content
            ⟨stringifyCreds { apiId := "123", apiHash := "abc", phoneNumber := "+1" }⟩,
          sessFile := FileState.absent }
        "auto_connect" noArgs =
      { env := errorContent "No saved session found. Please run authentication script first.",
        state := initialState, ops := [] } :=
  ⟨(autoConnect_missing_artifacts initialState okBackend emptyFS noArgs []).1 rfl,
   (autoConnect_missing_artifacts initialState okBackend
      { credFile := FileState.content
          ⟨stringifyCreds { apiId := "123", apiHash := "abc", phoneNumber := "+1" }⟩,
        sessFile := FileState.absent }
      noArgs [("apiId", "123"), ("apiHash", "abc"), ("phoneNumber", "+1")]).2.1
     (by decide) rfl⟩

/-- C7: `get_dialogs` maps each dialog to one output object apiece (the JSON
array has exactly as many objects as dialogs), and the nested detail field
matches the entity's kind with no other detail field present: a user entity
populates `user` and leaves `chat`/`channel` absent from the serialized
object, a broadcast channel populates only `channel`, and a basic group
populates only `chat`. -/
theorem getDialogs_detail_shape (ds : List Dialog) (d : Dialog) :
    dialogsResult ds = ds.map mapDialog ∧
    (dialogsResult ds).length = ds.length ∧
    (∀ fn ln un ph, d.entity = Entity.user fn ln un ph →
      (mapDialog d).user = some { firstName := fn, lastName := ln, username := un, phone := ph } ∧
      (mapDialog d).chat = none ∧ (mapDialog d).channel = none ∧
      "user" ∈ jsonKeys (chatInfoJson (mapDialog d)) ∧
      "chat" ∉ jsonKeys (chatInfoJson (mapDialog d)) ∧
      "channel" ∉ jsonKeys (chatInfoJson (mapDialog d))) ∧
    (∀ t un pc, d.entity = Entity.channel t un pc →
      (mapDialog d).channel = some { title := t, username := un, participantsCount := pc } ∧
      (mapDialog d).user = none ∧ (mapDialog d).chat = none ∧
      "channel" ∈ jsonKeys (chatInfoJson (mapDialog d)) ∧
      "user" ∉ jsonKeys (chatInfoJson (mapDialog d)) ∧
      "chat" ∉ jsonKeys (chatInfoJson (mapDialog d))) ∧
    (∀ t pc, d.entity = Entity.chat t pc →
      (mapDialog d).chat = some { title := t, participantsCount := pc } ∧
      (mapDialog d).user = none ∧ (mapDialog d).channel = none ∧
      "chat" ∈ jsonKeys (chatInfoJson (mapDialog d)) ∧
      "user" ∉ jsonKeys (chatInfoJson (mapDialog d)) ∧
      "channel" ∉ jsonKeys (chatInfoJson (mapDialog d))) := by
  obtain ⟨id, title, iu, ig, ic, uc, ent, msg⟩ := d
  refine ⟨rfl, by simp [dialogsResult], ?_, ?_, ?_⟩
  · intro fn ln un ph hx
    subst hx
    cases id <;> cases title <;> cases msg <;>
      simp [mapDialog, chatInfoJson, jsonKeys, optStrField, optNumField]
  · intro t un pc hx
    subst hx
    cases id <;> cases title <;> cases msg <;>
      simp [mapDialog, chatInfoJson, jsonKeys, optStrField, optNumField]
  · intro t pc hx
    subst hx
    cases id <;> cases title <;> cases msg <;>
      simp [mapDialog, chatInfoJson, jsonKeys, optStrField, optNumField]

/-- Witness for C7: one user-type dialog and one channel-type dialog yield
two output objects with the matching detail field and no other. -/
theorem getDialogs_detail_shape_witness :
    (dialogsResult
      [{ id := some 1, title := some "Alice", isUser := true, isGroup := false,
         isChannel := false, unreadCount := 0,
         entity := Entity.user (some "Alice") none (some "alice") none, message := none },
       { id := some 2, title := some "News", isUser := false, isGroup := false,
         isChannel := true, unreadCount := 3,
         entity := Entity.channel "News" (some "news") (some 10), message := none }]).length = 2 ∧
    ((mapDialog
        { id := some 1, title := some "Alice", isUser := true, isGroup := false,
          isChannel := false, unreadCount := 0,
          entity := Entity.user (some "Alice") none (some "alice") none, message := none }).user =
      some { firstName := some "Alice", lastName := none, username := some "alice", phone := none } ∧
     (mapDialog
        { id := some 1, title := some "Alice", isUser := true, isGroup := false,
          isChannel := false, unreadCount := 0,
          entity := Entity.user (some "Alice") none (some "alice") none, message := none }).chat =
      none ∧
     (mapDialog
        { id := some 1, title := some "Alice", isUser := true, isGroup := false,
          isChannel := false, unreadCount := 0,
          entity := Entity.user (some "Alice") none (some "alice") none, message := none }).channel =
      none ∧
     "user" ∈ jsonKeys (chatInfoJson (mapDialog
        { id := some 1, title := some "Alice", isUser := true, isGroup := false,
          isChannel := false, unreadCount := 0,
          entity := Entity.user (some "Alice") none (some "alice") none, message := none })) ∧
     "chat" ∉ jsonKeys (chatInfoJson (mapDialog
        { id := some 1, title := some "Alice", isUser := true, isGroup := false,
          isChannel := false, unreadCount := 0,
          entity := Entity.user (some "Alice") none (some "alice") none, message := none })) ∧
     "channel" ∉ jsonKeys (chatInfoJson (mapDialog
        { id := some 1, title := some "Alice", isUser := true, isGroup := false,
          isChannel := false, unreadCount := 0,
          entity := Entity.user (some "Alice") none (some "alice") none, message := none }))) ∧
    ((mapDialog
        { id := some 2, title := some "News", isUser := false, isGroup := false,
          isChannel := true, unreadCount := 3,
          entity := Entity.channel "News" (some "news") (some 10), message := none }).channel =
      some { title := "News", username := some "news", participantsCount := some 10 } ∧
     (mapDialog
        { id := some 2, title := some "News", isUser := false, isGroup := false,
          isChannel := true, unreadCount := 3,
          entity := Entity.channel "News" (some "news") (some 10), message := none }).user =
      none ∧
     (mapDialog
        { id := some 2, title := some "News", isUser := false, isGroup := false,
          isChannel := true, unreadCount := 3,
          entity := Entity.channel "News" (some "news") (some 10), message := none }).chat =
      none ∧
     "channel" ∈ jsonKeys (chatInfoJson (mapDialog
        { id := some 2, title := some "News", isUser := false, isGroup := false,
          isChannel := true, unreadCount := 3,
          entity := Entity.channel "News" (some "news") (some 10), message := none })) ∧
     "user" ∉ jsonKeys (chatInfoJson (mapDialog
        { id := some 2, title := some "News", isUser := false, isGroup := false,
          isChannel := true, unreadCount := 3,
          entity := Entity.channel "News" (some "news") (some 10), message := none })) ∧
     "chat" ∉ jsonKeys (chatInfoJson (mapDialog
        { id := some 2, title := some "News", isUser := false, isGroup := false,
          isChannel := true, unreadCount := 3,
          entity := Entity.channel "News" (some "news") (some 10), message := none }))) :=
  ⟨(getDialogs_detail_shape
      [{ id := some 1, title := some "Alice", isUser := true, isGroup := false,
         isChannel := false, unreadCount := 0,
         entity := Entity.user (some "Alice") none (some "alice") none, message := none },
       { id := some 2, title := some "News", isUser := false, isGroup := false,
         isChannel := true, unreadCount := 3,
         entity := Entity.channel "News" (some "news") (some 10), message := none }]
      { id := some 1, title := some "Alice", isUser := true, isGroup := false,
        isChannel := false, unreadCount := 0,
        entity := Entity.user (some "Alice") none (some "alice") none, message := none }).2.1,
   (getDialogs_detail_shape []
      { id := some 1, title := some "Alice", isUser := true, isGroup := false,
        isChannel := false, unreadCount := 0,
        entity := Entity.user (some "Alice") none (some "alice") none,
        message := none }).2.2.1 (some "Alice") none (some "alice") none rfl,
   (getDialogs_detail_shape []
      { id := some 2, title := some "News", isUser := false, isGroup := false,
        isChannel := true, unreadCount := 3,
        entity := Entity.channel "News" (some "news") (some 10),
        message := none }).2.2.2.1 "News" (some "news") (some 10) rfl⟩

/-- C9: `listTools` is stable and idempotent — its handler reads no mutable
state, so every call, in any state (including the state after any tool
call), returns the identical fixed tool-definition list. -/
theorem listTools_stable (st1 st2 : ServerState) (fs1 fs2 : FS) (bk : Backend)
    (name : String) (args : Args) :
    listToolsHandle st1 fs1 = listToolsHandle st2 fs2 ∧
    listToolsHandle (callTool st1 bk fs1 name args).state fs1 = toolsList ∧
    listToolsHandle st1 fs1 = toolsList :=
  ⟨rfl, rfl, rfl⟩

/-- C10: `connect_telegram` never reads the `phoneNumber` argument — for any
two argument objects equal except possibly at `phoneNumber`, the returned
envelope, the resulting state and the backend operations are identical, both
at the handler and through the dispatcher. -/
theorem connectTelegram_ignores_phoneNumber (st : ServerState) (bk : Backend) (fsys : FS)
    (a1 a2 : Args) (hId : a1.apiId = a2.apiId) (hHash : a1.apiHash = a2.apiHash)
    (hLimit : a1.limit = a2.limit) (hEntity : a1.entityId = a2.entityId)
    (hOffset : a1.offsetId = a2.offsetId) (hQuery : a1.query = a2.query) :
    connectTelegram st bk fsys a1 = connectTelegram st bk fsys a2 ∧
    callTool st bk fsys "connect_telegram" a1 = callTool st bk fsys "connect_telegram" a2 := by
  have h : connectTelegram st bk fsys a1 = connectTelegram st bk fsys a2 := by
    simp [connectTelegram, hId, hHash]
  refine ⟨h, ?_⟩
  simp [callTool, callToolExcept, h]

/-- Witness for C10 at two argument objects that differ only in
`phoneNumber` (one present, one absent despite the schema's `required`). -/
theorem connectTelegram_ignores_phoneNumber_witness :
    ({ noArgs with apiId := some "1", apiHash := some "h", phoneNumber := some "+111" } : Args).phoneNumber ≠
      ({ noArgs with apiId := some "1", apiHash := some "h" } : Args).phoneNumber ∧
    (connectTelegram initialState okBackend emptyFS
        { noArgs with apiId := some "1", apiHash := some "h", phoneNumber := some "+111" } =
      connectTelegram initialState okBackend emptyFS
        { noArgs with apiId := some "1", apiHash := some "h" } ∧
     callTool initialState okBackend emptyFS "connect_telegram"
        { noArgs with apiId := some "1", apiHash := some "h", phoneNumber := some "+111" } =
      callTool initialState okBackend emptyFS "connect_telegram"
        { noArgs with apiId := some "1", apiHash := some "h" }) :=
  ⟨by decide,
   connectTelegram_ignores_phoneNumber initialState okBackend emptyFS
     { noArgs with apiId := some "1", apiHash := some "h", phoneNumber := some "+111" }
     { noArgs with apiId := some "1", apiHash := some "h" }
     rfl rfl rfl rfl rfl rfl⟩
